import Mathlib

/-!
Invoice optimizer: the two HTTP handlers of `server.js`.

A shallow embedding of the executable part of `src/server.js`:

* `processInvoice`, the stub computation step;
* the `POST /invoices` handler (`postInvoicesWith` with the computation step as a
  parameter, `postInvoices` with the stub plugged in);
* the `GET /invoices/:id/status` handler (`getInvoiceStatus`).

JavaScript values are modelled by `JSValue`; an expression that may throw is a value of
`Except JSValue α`, the error being the thrown value. `Date.now()` is an explicit
parameter `now`, an integer count of milliseconds. The body of a response is the value
handed to `res.json`, before it is serialised.
-/

namespace InvoiceOptimizer

/-! ## JavaScript values -/

/-- A JavaScript number: `NaN`, an infinity, or a signed `mantissa * 2 ^ exponent`.
Both zeros are `finite _ 0 _`. -/
inductive JSNumber where
  | nan
  | infinite (negative : Bool)
  | finite (negative : Bool) (mantissa : Nat) (exponent : Int)

/-- The JavaScript values a request body, a processing result or a thrown value can be.
An object is the list of its own properties, the first binding of a name being the
property; a `Date` is its time value in milliseconds. -/
inductive JSValue where
  | undefined
  | null
  | bool (b : Bool)
  | number (n : JSNumber)
  | string (s : String)
  | date (time : Int)
  | array (items : List JSValue)
  | object (props : List (String × JSValue))

/-- `ToBoolean` on numbers: everything but `NaN`, `+0` and `-0` is truthy. -/
def JSNumber.truthy : JSNumber → Bool
  | .nan => false
  | .infinite _ => true
  | .finite _ mantissa _ => mantissa != 0

/-- `ToBoolean`: the falsy values are `undefined`, `null`, `false`, `NaN`, the zeros and
the empty string; dates, arrays and objects are always truthy. -/
def truthy : JSValue → Bool
  | .undefined => false
  | .null => false
  | .bool b => b
  | .number n => n.truthy
  | .string s => s != ""
  | .date _ => true
  | .array _ => true
  | .object _ => true

/-- The own property `name` of a value, when it has one. Only objects carry named own
properties in this model (the handlers never read an index or `length`). -/
def ownProp (base : JSValue) (name : String) : Option JSValue :=
  match base with
  | .object props => props.lookup name
  | _ => none

/-- The `TypeError` thrown by a property read on `undefined` or `null`: an object whose
`message` is the engine's text for it. -/
def typeError (base : JSValue) (name : String) : JSValue :=
  let shown := match base with
    | .null => "null"
    | _ => "undefined"
  .object [("message", .string
    ("Cannot read properties of " ++ shown ++ " (reading \x27" ++ name ++ "\x27)"))]

/-- The property read `base.name`: throws a `TypeError` on `undefined` and `null`, and is
otherwise the own property or `undefined`. None of the names the handlers read (`id`,
`success`, `message`, `optimizedPaymentDate`) is supplied by a built-in prototype of a
value of this model, an error object being modelled with its `message` as own property. -/
def getProp (base : JSValue) (name : String) : Except JSValue JSValue :=
  match base with
  | .undefined => .error (typeError base name)
  | .null => .error (typeError base name)
  | _ => .ok ((ownProp base name).getD .undefined)

/-! ## Requests and responses -/

/-- What a handler sees of a request: the body left by the JSON body parser and the route
parameters. -/
structure Request where
  body : JSValue
  params : List (String × String)

/-- The answer `res.status(status).json(body)`. -/
structure Response where
  status : Nat
  body : JSValue

/-- How a handler invocation ends: it has sent a response, or an exception left it. -/
inductive Outcome where
  | responded (res : Response)
  | uncaught (thrown : JSValue)

/-! ## The computation step -/

/-- `processInvoice`: the stub ignores the invoice, reports success and dates the payment
three days after the clock reading. It never throws. -/
def processInvoice (now : Int) (_invoiceData : JSValue) : Except JSValue JSValue :=
  .ok (.object [
    ("success", .bool true),
    ("message", .string "Invoice processed successfully."),
    ("optimizedPaymentDate", .date (now + 3 * 24 * 60 * 60 * 1000))])

/-! ## `POST /invoices` -/

/-- The condition `!invoiceData || !invoiceData.id`; the property read happens only when
`invoiceData` is truthy. -/
def invalidInvoice (invoiceData : JSValue) : Except JSValue Bool :=
  if !truthy invoiceData then pure true
  else do
    let id ← getProp invoiceData "id"
    pure (!truthy id)

/-- The body of the `try` block: await the computation step and answer 201 or 500 on its
success flag. -/
def tryBlock (step : JSValue → Except JSValue JSValue) (invoiceData : JSValue) :
    Except JSValue Response := do
  let processingResult ← step invoiceData
  let success ← getProp processingResult "success"
  if truthy success then
    let message ← getProp processingResult "message"
    let optimizedPaymentDate ← getProp processingResult "optimizedPaymentDate"
    pure ⟨201, .object [("message", message), ("optimizedPaymentDate", optimizedPaymentDate)]⟩
  else
    pure ⟨500, .object [("error", .string "Invoice processing failed")]⟩

/-- The `catch` block: answer 500 with the message of what was thrown. -/
def catchBlock (error : JSValue) : Except JSValue Response := do
  let details ← getProp error "message"
  pure ⟨500, .object [("error", .string "An error occurred while processing the invoice"),
    ("details", details)]⟩

/-- The `POST /invoices` handler, the computation step being a parameter: `step d` is
`.ok r` when the awaited call yields `r` and `.error e` when it throws or rejects
with `e`. -/
def postInvoicesWith (step : JSValue → Except JSValue JSValue) (req : Request) : Outcome :=
  let invoiceData := req.body
  match invalidInvoice invoiceData with
  | .error thrown => .uncaught thrown
  | .ok true => .responded ⟨400, .object [("error", .string "Invalid invoice data")]⟩
  | .ok false =>
    match tryBlock step invoiceData with
    | .ok res => .responded res
    | .error error =>
      match catchBlock error with
      | .ok res => .responded res
      | .error thrown => .uncaught thrown

/-- The `POST /invoices` handler of the repository, at clock reading `now`. -/
def postInvoices (now : Int) (req : Request) : Outcome :=
  postInvoicesWith (processInvoice now) req

/-! ## `GET /invoices/:id/status` -/

/-- The status handler: the request, its `:id` included, is not read. -/
def getInvoiceStatus (_req : Request) : Outcome :=
  .responded ⟨200, .object [("status", .string "Processed"),
    ("message", .string "Payment scheduled for 2023-10-15")]⟩

/-! ## Auxiliary lemmas -/

theorem getProp_of_truthy (base : JSValue) (name : String) (h : truthy base = true) :
    getProp base name = .ok ((ownProp base name).getD .undefined) := by
  cases base <;> simp_all [getProp, truthy]

theorem ownProp_eq_none_of_falsy (base : JSValue) (name : String)
    (h : truthy base = false) : ownProp base name = none := by
  cases base <;> simp_all [ownProp, truthy]

/-- The validation guard never throws: it is the disjunction of the two falsiness tests,
the `id` of a value without one being `undefined`. -/
theorem invalidInvoice_eq (invoiceData : JSValue) :
    invalidInvoice invoiceData =
      .ok (!truthy invoiceData || !truthy ((ownProp invoiceData "id").getD .undefined)) := by
  unfold invalidInvoice
  cases h : truthy invoiceData
  · simp [pure, Except.pure]
  · simp [getProp_of_truthy invoiceData "id" h, bind, Except.bind, pure, Except.pure]

theorem postInvoicesWith_of_invalid (step : JSValue → Except JSValue JSValue) (req : Request)
    (h : invalidInvoice req.body = .ok true) :
    postInvoicesWith step req =
      .responded ⟨400, .object [("error", .string "Invalid invoice data")]⟩ := by
  simp [postInvoicesWith, h]

theorem postInvoicesWith_of_valid (step : JSValue → Except JSValue JSValue) (req : Request)
    (h : invalidInvoice req.body = .ok false) :
    postInvoicesWith step req =
      match tryBlock step req.body with
      | .ok res => .responded res
      | .error error =>
        match catchBlock error with
        | .ok res => .responded res
        | .error thrown => .uncaught thrown := by
  simp [postInvoicesWith, h]

theorem tryBlock_processInvoice (now : Int) (invoiceData : JSValue) :
    tryBlock (processInvoice now) invoiceData =
      .ok ⟨201, .object [("message", .string "Invoice processed successfully."),
        ("optimizedPaymentDate", .date (now + 259200000))]⟩ := by
  rfl

theorem postInvoices_of_valid (now : Int) (req : Request)
    (h : invalidInvoice req.body = .ok false) :
    postInvoices now req =
      .responded ⟨201, .object [("message", .string "Invoice processed successfully."),
        ("optimizedPaymentDate", .date (now + 259200000))]⟩ := by
  simp [postInvoices, postInvoicesWith_of_valid _ _ h, tryBlock_processInvoice]

theorem postInvoices_of_invalid (now : Int) (req : Request)
    (h : invalidInvoice req.body = .ok true) :
    postInvoices now req =
      .responded ⟨400, .object [("error", .string "Invalid invoice data")]⟩ :=
  postInvoicesWith_of_invalid _ _ h

theorem truthy_of_ownProp (base : JSValue) (name : String) (v : JSValue)
    (h : ownProp base name = some v) : truthy base = true := by
  cases base <;> simp_all [ownProp, truthy]

/-- The validation guard depends on the invoice through its `id` alone. -/
theorem invalidInvoice_eq_id (invoiceData : JSValue) :
    invalidInvoice invoiceData =
      .ok (!truthy ((ownProp invoiceData "id").getD .undefined)) := by
  rw [invalidInvoice_eq]
  cases h : truthy invoiceData
  · simp [ownProp_eq_none_of_falsy invoiceData "id" h, truthy]
  · simp

theorem getProp_of_getProp (base : JSValue) (name other : String) (v : JSValue)
    (h : getProp base name = .ok v) :
    getProp base other = .ok ((ownProp base other).getD .undefined) := by
  cases base <;> simp_all [getProp]

/-! ## The claims -/

/-- C1: a `POST /invoices` request whose parsed body has no `id` field (the empty object
and an absent body included) is answered 400 with `{ error: "Invalid invoice data" }`. -/
theorem post_without_id_is_rejected (now : Int) (req : Request)
    (h : ownProp req.body "id" = none) :
    postInvoices now req =
      .responded ⟨400, .object [("error", .string "Invalid invoice data")]⟩ := by
  apply postInvoices_of_invalid
  rw [invalidInvoice_eq_id, h]
  rfl

theorem post_without_id_is_rejected_witness :
    (ownProp (JSValue.object []) "id" = none ∧
      postInvoices 1700000000000 ⟨.object [], []⟩ =
        .responded ⟨400, .object [("error", .string "Invalid invoice data")]⟩) ∧
    (ownProp JSValue.undefined "id" = none ∧
      postInvoices 1700000000000 ⟨.undefined, []⟩ =
        .responded ⟨400, .object [("error", .string "Invalid invoice data")]⟩) :=
  ⟨⟨rfl, post_without_id_is_rejected 1700000000000 ⟨.object [], []⟩ rfl⟩,
   ⟨rfl, post_without_id_is_rejected 1700000000000 ⟨.undefined, []⟩ rfl⟩⟩

/-- C2, as stated, fails: the body `{ id: 0 }` contains an `id` that is not null, and the
request is answered 400, not 201. -/
theorem post_zero_id_is_rejected :
    ownProp (JSValue.object [("id", .number (.finite false 0 0))]) "id" =
        some (.number (.finite false 0 0)) ∧
      (∃ res, postInvoices 1700000000000 ⟨.object [("id", .number (.finite false 0 0))], []⟩ =
          .responded res ∧ res.status = 400 ∧ res.status ≠ 201) :=
  ⟨rfl, ⟨⟨400, .object [("error", .string "Invalid invoice data")]⟩, rfl, rfl, by decide⟩⟩

/-- C2, amended: a `POST /invoices` request whose body contains a truthy `id` (any `id`
other than null, false, a zero, NaN and the empty string) is answered 201. -/
theorem post_truthy_id_is_created (now : Int) (req : Request) (id : JSValue)
    (hid : ownProp req.body "id" = some id) (htruthy : truthy id = true) :
    ∃ res, postInvoices now req = .responded res ∧ res.status = 201 := by
  refine ⟨_, postInvoices_of_valid now req ?_, rfl⟩
  rw [invalidInvoice_eq_id, hid]
  simp [htruthy]

theorem post_truthy_id_is_created_witness :
    ownProp (JSValue.object [("id", .array []), ("total", .string "12.50")]) "id" =
        some (.array []) ∧
      truthy (.array []) = true ∧
      ∃ res, postInvoices 1700000000000
          ⟨.object [("id", .array []), ("total", .string "12.50")], []⟩ = .responded res ∧
        res.status = 201 :=
  ⟨rfl, rfl, post_truthy_id_is_created 1700000000000
    ⟨.object [("id", .array []), ("total", .string "12.50")], []⟩ (.array []) rfl rfl⟩

/-- C3: when `POST /invoices` is answered 201 at clock reading `now`, the
`optimizedPaymentDate` of the response is the instant `now + 259200000` ms, that is
`now + 3 * 24 * 60 * 60 * 1000`, whatever the request. -/
theorem post_created_date_is_three_days_later (now : Int) (req : Request) (res : Response)
    (h : postInvoices now req = .responded res) (hstatus : res.status = 201) :
    ownProp res.body "optimizedPaymentDate" = some (.date (now + 259200000)) ∧
      now + 259200000 = now + 3 * 24 * 60 * 60 * 1000 := by
  refine ⟨?_, by norm_num⟩
  have hguard := invalidInvoice_eq_id req.body
  cases hb : !truthy ((ownProp req.body "id").getD .undefined)
  · rw [hb] at hguard
    rw [postInvoices_of_valid now req hguard] at h
    cases h
    rfl
  · rw [hb] at hguard
    rw [postInvoices_of_invalid now req hguard] at h
    cases h
    simp at hstatus

theorem post_created_date_is_three_days_later_witness :
    postInvoices 1700000000000
        ⟨.object [("id", .string "INV-7"), ("amount", .number (.finite false 5 2))], []⟩ =
      .responded ⟨201, .object [("message", .string "Invoice processed successfully."),
        ("optimizedPaymentDate", .date 1700259200000)]⟩ ∧
    ownProp (JSValue.object [("message", .string "Invoice processed successfully."),
        ("optimizedPaymentDate", .date 1700259200000)]) "optimizedPaymentDate" =
      some (.date (1700000000000 + 259200000)) ∧
    (1700000000000 : Int) + 259200000 = 1700000000000 + 3 * 24 * 60 * 60 * 1000 :=
  ⟨rfl, post_created_date_is_three_days_later 1700000000000
    ⟨.object [("id", .string "INV-7"), ("amount", .number (.finite false 5 2))], []⟩
    ⟨201, .object [("message", .string "Invoice processed successfully."),
      ("optimizedPaymentDate", .date 1700259200000)]⟩ rfl rfl⟩

/-- C4: with the computation step as a parameter, when the body passes validation and the
step returns a result `r` whose success flag reads `s`, the answer is 201 with body
exactly `{ message: r.message, optimizedPaymentDate: r.optimizedPaymentDate }` if `s` is
truthy, and 500 with `{ error: "Invoice processing failed" }` if not. -/
theorem post_maps_step_result (step : JSValue → Except JSValue JSValue) (req : Request)
    (r s : JSValue)
    (hvalid : invalidInvoice req.body = .ok false)
    (hstep : step req.body = .ok r)
    (hflag : getProp r "success" = .ok s) :
    postInvoicesWith step req = .responded
      (if truthy s then
        ⟨201, .object [("message", (ownProp r "message").getD .undefined),
          ("optimizedPaymentDate", (ownProp r "optimizedPaymentDate").getD .undefined)]⟩
      else ⟨500, .object [("error", .string "Invoice processing failed")]⟩) := by
  rw [postInvoicesWith_of_valid step req hvalid]
  have hmessage := getProp_of_getProp r "success" "message" s hflag
  have hdate := getProp_of_getProp r "success" "optimizedPaymentDate" s hflag
  cases hs : truthy s <;>
    simp [tryBlock, hstep, hflag, hmessage, hdate, hs, bind, Except.bind, pure, Except.pure]

theorem post_maps_step_result_witness :
    postInvoicesWith
        (fun _ => .ok (.object [("success", .number (.finite false 1 0)),
          ("message", .string "queued"), ("optimizedPaymentDate", .date 86400000),
          ("score", .number (.finite false 3 0))]))
        ⟨.object [("id", .string "INV-7")], []⟩ =
      .responded ⟨201, .object [("message", .string "queued"),
        ("optimizedPaymentDate", .date 86400000)]⟩ ∧
    postInvoicesWith
        (fun _ => .ok (.object [("success", .bool false), ("message", .string "queued")]))
        ⟨.object [("id", .string "INV-7")], []⟩ =
      .responded ⟨500, .object [("error", .string "Invoice processing failed")]⟩ :=
  ⟨post_maps_step_result
      (fun _ => .ok (.object [("success", .number (.finite false 1 0)),
        ("message", .string "queued"), ("optimizedPaymentDate", .date 86400000),
        ("score", .number (.finite false 3 0))]))
      ⟨.object [("id", .string "INV-7")], []⟩ _ (.number (.finite false 1 0)) rfl rfl rfl,
   post_maps_step_result
      (fun _ => .ok (.object [("success", .bool false), ("message", .string "queued")]))
      ⟨.object [("id", .string "INV-7")], []⟩ _ (.bool false) rfl rfl rfl⟩

/-- C5: with the computation step as a parameter, when the body passes validation and the
step throws an exception whose message is `m`, the handler answers 500 with
`{ error: "An error occurred while processing the invoice", details: m }`; it ends with a
response, not with the exception. -/
theorem post_catches_step_exception (step : JSValue → Except JSValue JSValue) (req : Request)
    (e m : JSValue)
    (hvalid : invalidInvoice req.body = .ok false)
    (hstep : step req.body = .error e)
    (hmessage : getProp e "message" = .ok m) :
    postInvoicesWith step req = .responded
      ⟨500, .object [("error", .string "An error occurred while processing the invoice"),
        ("details", m)]⟩ := by
  rw [postInvoicesWith_of_valid step req hvalid]
  simp [tryBlock, catchBlock, hstep, hmessage, bind, Except.bind, pure, Except.pure]

theorem post_catches_step_exception_witness :
    invalidInvoice (JSValue.object [("id", .string "INV-7")]) = .ok false ∧
    getProp (JSValue.object [("message", .string "model unavailable")]) "message" =
      .ok (.string "model unavailable") ∧
    postInvoicesWith (fun _ => .error (.object [("message", .string "model unavailable")]))
        ⟨.object [("id", .string "INV-7")], []⟩ =
      .responded
        ⟨500, .object [("error", .string "An error occurred while processing the invoice"),
          ("details", .string "model unavailable")]⟩ :=
  ⟨rfl, rfl, post_catches_step_exception
    (fun _ => .error (.object [("message", .string "model unavailable")]))
    ⟨.object [("id", .string "INV-7")], []⟩ _ (.string "model unavailable") rfl rfl rfl⟩

/-- C6: `GET /invoices/:id/status` answers every request with 200 and
`{ status: "Processed", message: "Payment scheduled for 2023-10-15" }`; the answers for
any two requests, such as those for `abc123` and `999`, are equal. -/
theorem status_is_fixed :
    (∀ req : Request, getInvoiceStatus req =
      .responded ⟨200, .object [("status", .string "Processed"),
        ("message", .string "Payment scheduled for 2023-10-15")]⟩) ∧
    (∀ req₁ req₂ : Request, getInvoiceStatus req₁ = getInvoiceStatus req₂) ∧
    getInvoiceStatus ⟨.undefined, [("id", "abc123")]⟩ =
      getInvoiceStatus ⟨.undefined, [("id", "999")]⟩ :=
  ⟨fun _ => rfl, fun _ _ => rfl, rfl⟩

/-- C7: two `POST /invoices` requests whose bodies carry the same `id`, handled at the
same clock reading, get equal outcomes, whatever else the bodies hold. -/
theorem post_depends_on_id_only (now : Int) (req₁ req₂ : Request)
    (h : ownProp req₁.body "id" = ownProp req₂.body "id") :
    postInvoices now req₁ = postInvoices now req₂ := by
  have h₁ := invalidInvoice_eq_id req₁.body
  have h₂ := invalidInvoice_eq_id req₂.body
  rw [h] at h₁
  cases hb : !truthy ((ownProp req₂.body "id").getD .undefined)
  · rw [hb] at h₁ h₂
    rw [postInvoices_of_valid now req₁ h₁, postInvoices_of_valid now req₂ h₂]
  · rw [hb] at h₁ h₂
    rw [postInvoices_of_invalid now req₁ h₁, postInvoices_of_invalid now req₂ h₂]

theorem post_depends_on_id_only_witness :
    ownProp (JSValue.object [("id", .string "INV-7"), ("amount", .number (.finite false 5 2))])
        "id" =
      ownProp (JSValue.object [("vendor", .string "ACME"), ("id", .string "INV-7"),
        ("lines", .array [.null])]) "id" ∧
    postInvoices 1700000000000
        ⟨.object [("id", .string "INV-7"), ("amount", .number (.finite false 5 2))], []⟩ =
      postInvoices 1700000000000
        ⟨.object [("vendor", .string "ACME"), ("id", .string "INV-7"),
          ("lines", .array [.null])], [("trace", "on")]⟩ :=
  ⟨rfl, post_depends_on_id_only 1700000000000
    ⟨.object [("id", .string "INV-7"), ("amount", .number (.finite false 5 2))], []⟩
    ⟨.object [("vendor", .string "ACME"), ("id", .string "INV-7"),
      ("lines", .array [.null])], [("trace", "on")]⟩ rfl⟩

/-- C8: with the stub `processInvoice`, the step returns a result whose success flag is
`true` (it does not throw), the `try` block ends in the 201 answer (neither the failure
branch nor the `catch` block is entered), and every `POST /invoices` request is answered
with 400 or 201, never 500. -/
theorem post_never_500_with_stub (now : Int) (req : Request) :
    (∃ r, processInvoice now req.body = .ok r ∧ getProp r "success" = .ok (.bool true)) ∧
    (∃ res, tryBlock (processInvoice now) req.body = .ok res ∧ res.status = 201) ∧
    (∃ res, postInvoices now req = .responded res ∧
      (res.status = 400 ∨ res.status = 201) ∧ res.status ≠ 500) := by
  refine ⟨⟨_, rfl, rfl⟩, ⟨_, tryBlock_processInvoice now req.body, rfl⟩, ?_⟩
  have hguard := invalidInvoice_eq_id req.body
  cases hb : !truthy ((ownProp req.body "id").getD .undefined)
  · rw [hb] at hguard
    exact ⟨_, postInvoices_of_valid now req hguard, Or.inr rfl, by simp⟩
  · rw [hb] at hguard
    exact ⟨_, postInvoices_of_invalid now req hguard, Or.inl rfl, by simp⟩

/-- C9: a body that passes validation, submitted at clock reading `t₁` and again at `t₂`,
is answered 201 both times with the same message; each answer is the handler's function
of its own request and clock reading, with no conflict or deduplication outcome. -/
theorem post_twice_is_created_twice (t₁ t₂ : Int) (req : Request)
    (hvalid : invalidInvoice req.body = .ok false) :
    postInvoices t₁ req =
      .responded ⟨201, .object [("message", .string "Invoice processed successfully."),
        ("optimizedPaymentDate", .date (t₁ + 259200000))]⟩ ∧
    postInvoices t₂ req =
      .responded ⟨201, .object [("message", .string "Invoice processed successfully."),
        ("optimizedPaymentDate", .date (t₂ + 259200000))]⟩ :=
  ⟨postInvoices_of_valid t₁ req hvalid, postInvoices_of_valid t₂ req hvalid⟩

theorem post_twice_is_created_twice_witness :
    invalidInvoice (JSValue.object [("id", .string "INV-7")]) = .ok false ∧
    postInvoices 1700000000000 ⟨.object [("id", .string "INV-7")], []⟩ =
      .responded ⟨201, .object [("message", .string "Invoice processed successfully."),
        ("optimizedPaymentDate", .date (1700000000000 + 259200000))]⟩ ∧
    postInvoices 1700000000250 ⟨.object [("id", .string "INV-7")], []⟩ =
      .responded ⟨201, .object [("message", .string "Invoice processed successfully."),
        ("optimizedPaymentDate", .date (1700000000250 + 259200000))]⟩ :=
  ⟨rfl, post_twice_is_created_twice 1700000000000 1700000000250
    ⟨.object [("id", .string "INV-7")], []⟩ rfl⟩

/-- C10: with the stub, `POST /invoices` is answered 400 exactly when the body is falsy or
its `id` is falsy, and 201 otherwise; in the falsy case the answer is the 400 one
whatever the computation step is, so the step is not invoked; bodies with `id: 0`,
`id: ""` and `id: false` are such cases. -/
theorem post_rejects_exactly_falsy (now : Int) (req : Request) :
    (∃ res, postInvoices now req = .responded res ∧
      (res.status = 400 ↔
        (truthy req.body = false ∨
          truthy ((ownProp req.body "id").getD .undefined) = false)) ∧
      (res.status = 201 ↔
        ¬ (truthy req.body = false ∨
          truthy ((ownProp req.body "id").getD .undefined) = false))) ∧
    (∀ step : JSValue → Except JSValue JSValue,
      (truthy req.body = false ∨
          truthy ((ownProp req.body "id").getD .undefined) = false) →
        postInvoicesWith step req =
          .responded ⟨400, .object [("error", .string "Invalid invoice data")]⟩) ∧
    (∀ (step : JSValue → Except JSValue JSValue) (id : JSValue),
      id = .number (.finite false 0 0) ∨ id = .string "" ∨ id = .bool false →
        postInvoicesWith step ⟨.object [("id", id)], req.params⟩ =
          .responded ⟨400, .object [("error", .string "Invalid invoice data")]⟩) := by
  have hguard := invalidInvoice_eq req.body
  refine ⟨?_, ?_, ?_⟩
  · cases hbody : truthy req.body <;>
      cases hid : truthy ((ownProp req.body "id").getD .undefined) <;>
      simp only [hbody, hid] at hguard
    · exact ⟨_, postInvoices_of_invalid now req hguard, by simp⟩
    · exact ⟨_, postInvoices_of_invalid now req hguard, by simp⟩
    · exact ⟨_, postInvoices_of_invalid now req hguard, by simp⟩
    · exact ⟨_, postInvoices_of_valid now req hguard, by simp⟩
  · intro step h
    apply postInvoicesWith_of_invalid
    rw [hguard]
    rcases h with h | h <;> simp [h]
  · intro step id h
    rcases h with h | h | h <;> subst h <;> rfl

end InvoiceOptimizer
